import Mathlib

/-!
# VortexL2 `forward.py` — shallow embedding and verification

This file embeds the port-forward reconciliation engine of
`src/vortexl2/forward.py` (class `ForwardManager`) into Lean and proves
properties of that embedding.

Conventions of the embedding:
* Python strings are `List Char` in the pure naming layer and `String`
  (a wrapper around `List Char`) in the stateful layer.
* Python `int` is `Int` (arbitrary precision, as in Python).
* Python's ASCII-relevant behaviour of `str.lower`, `str.isalnum`,
  `str.isspace` is modelled on the ASCII range (`Char.isAlphanum`,
  `Char.isWhitespace`); the Unicode tables are out of scope.
* The external collaborators (filesystem, `systemctl`, the config store)
  are modelled by an explicit world state plus an environment of oracles,
  and every externally visible effect is recorded in a trace of `Action`s.
-/

namespace VortexL2

/-- ASCII model of Python `str.lower` applied to one character:
uppercase ASCII letters are shifted by 32, all else unchanged. -/
def lowerChar (c : Char) : Char :=
  if 65 ≤ c.toNat ∧ c.toNat ≤ 90 then Char.ofNat (c.toNat + 32) else c

/-- One character of the comprehension in `_sanitize_unit_part`
(`c if (c.isalnum() or c in "-_") else "-"`). -/
def sanitizeChar (c : Char) : Char :=
  if c.isAlphanum ∨ c = '-' ∨ c = '_' then c else '-'

/-- Python `str.strip()`: drop whitespace from both ends. -/
def pyStrip (l : List Char) : List Char :=
  ((l.dropWhile Char.isWhitespace).reverse.dropWhile Char.isWhitespace).reverse

/-- `re.sub(r"-+", "-", s)`: collapse each run of dashes to one dash. -/
def collapseDashes : List Char → List Char
  | [] => []
  | [c] => [c]
  | a :: b :: rest =>
    if a = '-' ∧ b = '-' then collapseDashes (b :: rest)
    else a :: collapseDashes (b :: rest)

/-- Python `str.strip("-")`: drop dashes from both ends. -/
def stripDash (l : List Char) : List Char :=
  ((l.dropWhile (· == '-')).reverse.dropWhile (· == '-')).reverse

/-- `ForwardManager._sanitize_unit_part`: strip + lowercase, replace
disallowed characters by `-`, collapse dash runs, strip outer dashes,
and fall back to `"tunnel"` when the result is empty. -/
def sanitizeUnitPart (l : List Char) : List Char :=
  let s1 := (pyStrip l).map lowerChar
  let s2 := s1.map sanitizeChar
  let s3 := collapseDashes s2
  let s4 := stripDash s3
  if s4 = [] then "tunnel".toList else s4

/-- Decimal digit character (callers only pass values `< 10`). -/
def digitChar : Nat → Char
  | 0 => '0' | 1 => '1' | 2 => '2' | 3 => '3' | 4 => '4'
  | 5 => '5' | 6 => '6' | 7 => '7' | 8 => '8' | _ => '9'

/-- Fuel-driven decimal rendering of a natural number (fuel keeps the
recursion structural so the kernel can evaluate it). -/
def natDigitsAux : Nat → Nat → List Char
  | 0, _ => []
  | fuel + 1, n =>
    if n < 10 then [digitChar n]
    else natDigitsAux fuel (n / 10) ++ [digitChar (n % 10)]

/-- Decimal representation of a natural number, as produced by Python `str`. -/
def natDigits (n : Nat) : List Char := natDigitsAux (n + 1) n

/-- Python `str` of an `int`: optional leading `-` then decimal digits. -/
def intRepr : Int → List Char
  | Int.ofNat n => natDigits n
  | Int.negSucc n => '-' :: natDigits (n + 1)

/-- `String` form of `intRepr`, used when formatting messages. -/
def intStr (i : Int) : String := String.mk (intRepr i)

/-- Left fold turning a digit string back into the natural number it denotes. -/
def digitsVal (l : List Char) : Nat := l.foldl (fun a c => a * 10 + (c.toNat - 48)) 0

/-- Models Python `int()` applied to a whitespace-stripped token: an
optional ASCII sign followed by one or more ASCII digits parses, anything
else raises `ValueError` (here: `none`). -/
def pyParseInt (tok : List Char) : Option Int :=
  match tok with
  | [] => none
  | '-' :: rest =>
    if rest ≠ [] ∧ rest.all Char.isDigit then some (-(digitsVal rest : Int)) else none
  | '+' :: rest =>
    if rest ≠ [] ∧ rest.all Char.isDigit then some (digitsVal rest : Int) else none
  | l => if l.all Char.isDigit then some (digitsVal l : Int) else none

/-- Python `str.split(",")`: split at every comma (`""` yields `[""]`). -/
def splitOnComma : List Char → List (List Char)
  | [] => [[]]
  | c :: rest =>
    if c = ',' then [] :: splitOnComma rest
    else
      match splitOnComma rest with
      | [] => [[c]]
      | t :: ts => (c :: t) :: ts

/-- Token extraction shared by `add_multiple_forwards` and
`remove_multiple_forwards`: split on commas, strip each token, drop
empties. -/
def parseTokens (s : String) : List (List Char) :=
  ((splitOnComma s.toList).map pyStrip).filter (fun t => !t.isEmpty)

/-- `ForwardManager._get_service_name` as a pure function of the tunnel
name and the port: `vortexl2-fwd-{sanitized}-{port}.service`. -/
def canonicalIdL (name : List Char) (port : Int) : List Char :=
  "vortexl2-fwd-".toList ++ (sanitizeUnitPart name ++ ('-' :: (intRepr port ++ ".service".toList)))

/-- `ForwardManager._legacy_service_name`: `vortexl2-fwd-{port}.service`. -/
def legacyServiceName (port : Int) : String :=
  "vortexl2-fwd-" ++ intStr port ++ ".service"

/-! ## Data model: config, world, environment, actions -/

/-- The tunnel-level config object as `ForwardManager` reads it via
`getattr`: `none` models a missing attribute (so that the `getattr`
defaults of the source apply). -/
structure Config where
  name : Option String
  remote_forward_ip : Option String
  listen_ip : Option String
  forwarded_ports : List Int
deriving DecidableEq

/-- The mutable state an operation can touch: the config store and the
unit files under `/etc/systemd/system` (keyed by unit file name; the
directory is the fixed constant `SYSTEMD_DIR`). -/
structure World where
  config : Config
  files : List (String × String)
deriving DecidableEq

/-- One externally visible side effect. -/
inductive Action where
  | runCmd (cmd : String)
  | writeFile (path content : String)
  | deleteFile (path : String)
  | addPort (port : Int)
  | removePort (port : Int)
deriving DecidableEq

/-- Oracles for the outcomes that the OS decides: `run_command`
results, unit-file write success, and `Path.unlink` success. -/
structure Env where
  cmd : String → Bool × String
  writeOk : String → Bool
  unlinkOk : String → Bool
  writeErrMsg : String → String

/-- The `(success, message)` result of one operation, together with the
world it leaves behind and the trace of side effects it performed. -/
structure OpResult where
  world : World
  trace : List Action
  ok : Bool
  msg : String
deriving DecidableEq

/-- `Path.exists()` for a unit file. -/
def fileExists (w : World) (path : String) : Bool :=
  w.files.any (fun e => e.1 == path)

/-- `open(path, "w").write(content)`: truncate-and-write. -/
def setFile (w : World) (path content : String) : World :=
  { w with files := w.files.filter (fun e => e.1 != path) ++ [(path, content)] }

/-- `try: path.unlink() except Exception: pass` — the attempt is recorded,
the file disappears only if the environment lets the unlink succeed. -/
def tryUnlink (env : Env) (w : World) (path : String) : World × List Action :=
  if env.unlinkOk path then
    ({ w with files := w.files.filter (fun e => e.1 != path) }, [Action.deleteFile path])
  else (w, [Action.deleteFile path])

/-- Python truthiness of `getattr(self.config, "remote_forward_ip", None)`:
falsy when the attribute is absent or the empty string. -/
def remoteFalsy (c : Config) : Bool :=
  match c.remote_forward_ip with
  | none => true
  | some s => s == ""

/-- Modelled from the spec: the external declared-state store's
`add_port` mutator (`config.add_port`, not part of `src/`); the spec
describes declared state as the *set* of ports the operator intends,
so insertion is idempotent. -/
def Config.addPort (c : Config) (p : Int) : Config :=
  if p ∈ c.forwarded_ports then c
  else { c with forwarded_ports := c.forwarded_ports ++ [p] }

/-- Modelled from the spec: the external declared-state store's
`remove_port` mutator (`config.remove_port`, not part of `src/`):
the port no longer appears in the declared set afterwards. -/
def Config.removePort (c : Config) (p : Int) : Config :=
  { c with forwarded_ports := c.forwarded_ports.filter (fun q => q != p) }

/-- `_get_service_name` reading the tunnel name off the config
(`getattr(self.config, "name", "tunnel")`). -/
def getServiceName (c : Config) (port : Int) : String :=
  String.mk (canonicalIdL (c.name.getD "tunnel").toList port)

/-- The `SERVICE_TEMPLATE` of the source with its four parameters
substituted. -/
def serviceTemplate (tunnel : String) (port : Int) (remoteIp listenIp : String) : String :=
  "[Unit]\nDescription=VortexL2 Port Forward - " ++ tunnel ++ " - Port " ++ intStr port ++
  "\nAfter=network.target\nRequires=network.target\n\n[Service]\nType=simple\nExecStart=/usr/bin/socat TCP4-LISTEN:" ++
  intStr port ++ ",bind=" ++ listenIp ++ ",reuseaddr,fork TCP4:" ++ remoteIp ++ ":" ++ intStr port ++
  "\nRestart=always\nRestartSec=5\n\n[Install]\nWantedBy=multi-user.target\n"

/-! ## Operations of `ForwardManager` -/

/-- `_migrate_legacy_unit`: if a legacy unit file exists, stop and
disable the legacy unit (best-effort), try to delete the file, and
reload the daemon; otherwise do nothing. -/
def migrateLegacyUnit (env : Env) (w : World) (port : Int) : World × List Action :=
  let lname := legacyServiceName port
  if fileExists w lname then
    let u := tryUnlink env w lname
    (u.1, [Action.runCmd ("systemctl stop " ++ lname),
           Action.runCmd ("systemctl disable " ++ lname)] ++ u.2 ++
          [Action.runCmd "systemctl daemon-reload"])
  else (w, [])

/-- `create_forward`. -/
def createForward (env : Env) (w : World) (port : Int) : OpResult :=
  if remoteFalsy w.config then
    ⟨w, [], false, "Remote forward IP not configured"⟩
  else
    let remoteIp := w.config.remote_forward_ip.getD ""
    let listenIp := w.config.listen_ip.getD "0.0.0.0"
    let mg := migrateLegacyUnit env w port
    let w1 := mg.1
    let sname := getServiceName w1.config port
    let tunnelName := w1.config.name.getD "tunnel"
    let content := serviceTemplate tunnelName port remoteIp listenIp
    if env.writeOk sname then
      let w2 := setFile w1 sname content
      let r := env.cmd ("systemctl enable --now " ++ sname)
      let t2 := [Action.writeFile sname content, Action.runCmd "systemctl daemon-reload",
                 Action.runCmd ("systemctl enable --now " ++ sname)]
      if r.1 then
        ⟨{ w2 with config := w2.config.addPort port }, mg.2 ++ t2 ++ [Action.addPort port], true,
          "Port forward for " ++ intStr port ++ " created (listen " ++ listenIp ++ " -> " ++
            remoteIp ++ ":" ++ intStr port ++ ")"⟩
      else
        ⟨w2, mg.2 ++ t2, false,
          "Failed to start forward for port " ++ intStr port ++ ": " ++ r.2⟩
    else
      ⟨w1, mg.2, false, "Failed to create service file: " ++ env.writeErrMsg sname⟩

/-- `remove_forward`. -/
def removeForward (env : Env) (w : World) (port : Int) : OpResult :=
  let sname := getServiceName w.config port
  let lname := legacyServiceName port
  let t1 := [Action.runCmd ("systemctl stop " ++ sname),
             Action.runCmd ("systemctl disable " ++ sname),
             Action.runCmd ("systemctl stop " ++ lname),
             Action.runCmd ("systemctl disable " ++ lname)]
  let u1 := if fileExists w sname then tryUnlink env w sname else (w, [])
  let u2 := if fileExists u1.1 lname then tryUnlink env u1.1 lname else (u1.1, [])
  ⟨{ u2.1 with config := u2.1.config.removePort port },
    t1 ++ u1.2 ++ u2.2 ++ [Action.runCmd "systemctl daemon-reload", Action.removePort port],
    true, "Port forward for " ++ intStr port ++ " removed"⟩

/-- The shared per-token loop of `add_multiple_forwards` and
`remove_multiple_forwards` (they differ only in the operation applied):
parse each token, run the operation on parse success, and collect one
transcript line per token. -/
def multiLoop (env : Env) (op : Env → World → Int → OpResult) :
    World → List (List Char) → World × List Action × List String
  | w, [] => (w, [], [])
  | w, tok :: rest =>
    match pyParseInt tok with
    | some port =>
      let r := op env w port
      let rec_ := multiLoop env op r.world rest
      (rec_.1, r.trace ++ rec_.2.1, ("Port " ++ intStr port ++ ": " ++ r.msg) :: rec_.2.2)
    | none =>
      let rec_ := multiLoop env op w rest
      (rec_.1, rec_.2.1, ("Port '" ++ String.mk tok ++ "': Invalid port number") :: rec_.2.2)

/-- `add_multiple_forwards`. -/
def addMultipleForwards (env : Env) (w : World) (portsStr : String) : OpResult :=
  let r := multiLoop env createForward w (parseTokens portsStr)
  ⟨r.1, r.2.1, true, String.intercalate "\n" r.2.2⟩

/-- `remove_multiple_forwards`. -/
def removeMultipleForwards (env : Env) (w : World) (portsStr : String) : OpResult :=
  let r := multiLoop env removeForward w (parseTokens portsStr)
  ⟨r.1, r.2.1, true, String.intercalate "\n" r.2.2⟩

/-- One record of `list_forwards`. -/
structure ForwardEntry where
  port : Int
  status : String
  enabled : String
  remote : String
deriving DecidableEq

/-- The body of the `list_forwards` loop for one declared port. -/
def listOnePort (env : Env) (c : Config) (port : Int) : ForwardEntry :=
  let newUnit := getServiceName c port
  let legacyUnit := legacyServiceName port
  let r1 := env.cmd ("systemctl is-active " ++ newUnit)
  let sa :=
    if r1.1 then (r1.2, newUnit)
    else
      let r2 := env.cmd ("systemctl is-active " ++ legacyUnit)
      (if r2.1 then r2.2 else "inactive", if r2.1 then legacyUnit else newUnit)
  let r3 := env.cmd ("systemctl is-enabled " ++ sa.2)
  ⟨port, sa.1, if r3.1 then r3.2 else "disabled",
    (c.remote_forward_ip.getD "-") ++ ":" ++ intStr port⟩

/-- `list_forwards`: one record per declared port. -/
def listForwards (env : Env) (w : World) : List ForwardEntry :=
  w.config.forwarded_ports.map (listOnePort env w.config)

/-- The body of the `start_all_forwards` loop for one port: migrate the
legacy unit, fall back to `create_forward` when the canonical unit file
is absent, otherwise `systemctl start` it. -/
def startOnePort (env : Env) (w : World) (port : Int) : World × List Action × String :=
  let mg := migrateLegacyUnit env w port
  let w1 := mg.1
  let sname := getServiceName w1.config port
  if !fileExists w1 sname then
    let r := createForward env w1 port
    (r.world, mg.2 ++ r.trace,
      if r.ok then "Port " ++ intStr port ++ ": recreated and started"
      else "Port " ++ intStr port ++ ": failed to recreate - " ++ r.msg)
  else
    let r := env.cmd ("systemctl start " ++ sname)
    (w1, mg.2 ++ [Action.runCmd ("systemctl start " ++ sname)],
      if r.1 then "Port " ++ intStr port ++ ": started"
      else "Port " ++ intStr port ++ ": failed to start - " ++ r.2)

/-- The `start_all_forwards` loop over the declared ports (the Python
`for` iterates the live list; `add_port` is idempotent for a port that
is already declared, so iterating the initial snapshot is faithful). -/
def startAllLoop (env : Env) : World → List Int → World × List Action × List String
  | w, [] => (w, [], [])
  | w, p :: ps =>
    let r := startOnePort env w p
    let rest := startAllLoop env r.1 ps
    (rest.1, r.2.1 ++ rest.2.1, r.2.2 :: rest.2.2)

/-- `start_all_forwards`. -/
def startAllForwards (env : Env) (w : World) : World × List Action × Bool × String :=
  let r := startAllLoop env w w.config.forwarded_ports
  if r.2.2 = [] then (r.1, r.2.1, true, "No port forwards configured")
  else (r.1, r.2.1, true, String.intercalate "\n" r.2.2)

/-- The body of the `stop_all_forwards` loop for one port. Note the
source appends a transcript line only when stopping the canonical unit
succeeded; a failed stop contributes no line. -/
def stopOnePort (env : Env) (c : Config) (port : Int) : List Action × List String :=
  let newUnit := getServiceName c port
  let legacyUnit := legacyServiceName port
  let r := env.cmd ("systemctl stop " ++ newUnit)
  ([Action.runCmd ("systemctl stop " ++ newUnit),
    Action.runCmd ("systemctl stop " ++ legacyUnit)],
   if r.1 then ["Port " ++ intStr port ++ ": stopped (" ++ newUnit ++ ")"] else [])

/-- The `stop_all_forwards` loop (it never mutates config or files). -/
def stopAllLoop (env : Env) (c : Config) : List Int → List Action × List String
  | [] => ([], [])
  | p :: ps =>
    let r := stopOnePort env c p
    let rest := stopAllLoop env c ps
    (r.1 ++ rest.1, r.2 ++ rest.2)

/-- `stop_all_forwards`. -/
def stopAllForwards (env : Env) (w : World) : List Action × Bool × String :=
  let r := stopAllLoop env w.config w.config.forwarded_ports
  if r.2 = [] then (r.1, true, "No port forwards configured")
  else (r.1, true, String.intercalate "\n" r.2)

/-- The body of the `restart_all_forwards` loop for one port: migrate,
fall back to `create_forward` when the canonical unit file is absent,
then check `remote_forward_ip`, rewrite the unit file and restart. -/
def restartOnePort (env : Env) (w : World) (port : Int) : World × List Action × String :=
  let mg := migrateLegacyUnit env w port
  let w1 := mg.1
  let sname := getServiceName w1.config port
  if !fileExists w1 sname then
    let r := createForward env w1 port
    (r.world, mg.2 ++ r.trace,
      if r.ok then "Port " ++ intStr port ++ ": recreated and started"
      else "Port " ++ intStr port ++ ": failed to recreate - " ++ r.msg)
  else if remoteFalsy w1.config then
    (w1, mg.2, "Port " ++ intStr port ++ ": remote_forward_ip not set")
  else
    let remoteIp := w1.config.remote_forward_ip.getD ""
    let listenIp := w1.config.listen_ip.getD "0.0.0.0"
    let tunnelName := w1.config.name.getD "tunnel"
    let content := serviceTemplate tunnelName port remoteIp listenIp
    if env.writeOk sname then
      let w2 := setFile w1 sname content
      let r := env.cmd ("systemctl restart " ++ sname)
      (w2, mg.2 ++ [Action.writeFile sname content, Action.runCmd "systemctl daemon-reload",
                    Action.runCmd ("systemctl restart " ++ sname)],
        if r.1 then "Port " ++ intStr port ++ ": restarted"
        else "Port " ++ intStr port ++ ": failed - " ++ r.2)
    else
      (w1, mg.2, "Port " ++ intStr port ++ ": failed to write service file - " ++ env.writeErrMsg sname)

/-- The `restart_all_forwards` loop over the declared ports. -/
def restartAllLoop (env : Env) : World → List Int → World × List Action × List String
  | w, [] => (w, [], [])
  | w, p :: ps =>
    let r := restartOnePort env w p
    let rest := restartAllLoop env r.1 ps
    (rest.1, r.2.1 ++ rest.2.1, r.2.2 :: rest.2.2)

/-- `restart_all_forwards`. -/
def restartAllForwards (env : Env) (w : World) : World × List Action × Bool × String :=
  let r := restartAllLoop env w w.config.forwarded_ports
  if r.2.2 = [] then (r.1, r.2.1, true, "No port forwards configured")
  else (r.1, r.2.1, true, String.intercalate "\n" r.2.2)

/-- No two adjacent dashes (the invariant `re.sub(r"-+", "-", ·)` establishes). -/
def NotDD (a b : Char) : Prop := ¬(a = '-' ∧ b = '-')

/-- Shape of everything that can follow the delimiter before the port in a
canonical identifier: either dash-free (nonnegative port), or one leading
dash followed by a dash-free remainder (negative port). -/
def TailOk (t : List Char) : Prop :=
  (∀ c ∈ t, c ≠ '-') ∨ ∃ d, t = '-' :: d ∧ ∀ c ∈ d, c ≠ '-'

/-- The shape of one transcript line of a batch operation, relative to
its token: parseable tokens get `"Port {n}: {per-port message}"`,
unparseable ones get `"Port \'{token}\': Invalid port number"`. -/
def lineShape (tok : List Char) (line : String) : Prop :=
  match pyParseInt tok with
  | some n => ∃ m, line = "Port " ++ intStr n ++ ": " ++ m
  | none => line = "Port \'" ++ String.mk tok ++ "\': Invalid port number"

/-! ## Concrete fixtures used by witnesses and counterexamples -/

/-- Environment where every controller command succeeds. -/
def envAllOk : Env :=
  { cmd := fun _ => (true, "active"), writeOk := fun _ => true,
    unlinkOk := fun _ => true, writeErrMsg := fun _ => "denied" }

/-- Environment where every controller command fails. -/
def envAllFail : Env :=
  { cmd := fun _ => (false, "unit not found"), writeOk := fun _ => true,
    unlinkOk := fun _ => true, writeErrMsg := fun _ => "denied" }

/-- Environment where every controller command and every unlink fails. -/
def envCleanupFail : Env :=
  { cmd := fun _ => (false, "unit not found"), writeOk := fun _ => false,
    unlinkOk := fun _ => false, writeErrMsg := fun _ => "denied" }

/-- Environment for the legacy-fallback `list()` scenario: the canonical
`is-active` query fails, the legacy `is-active` query answers `active`,
and `is-enabled` against the legacy unit answers `enabled`. -/
def envLegacyProbe : Env :=
  { cmd := fun c =>
      if c = "systemctl is-active vortexl2-fwd-80.service" then (true, "active")
      else if c = "systemctl is-enabled vortexl2-fwd-80.service" then (true, "enabled")
      else (false, "unit not recognized"),
    writeOk := fun _ => true, unlinkOk := fun _ => true, writeErrMsg := fun _ => "denied" }

/-- A tunnel config with a remote endpoint and one declared port. -/
def cfgMain : Config :=
  { name := some "main", remote_forward_ip := some "10.0.0.2",
    listen_ip := none, forwarded_ports := [80] }

/-- The same tunnel with `remote_forward_ip` absent. -/
def cfgNoRemote : Config :=
  { name := some "main", remote_forward_ip := none,
    listen_ip := none, forwarded_ports := [80] }

/-- World with only a legacy unit file for port 80. -/
def wldLegacyOnly : World :=
  { config := cfgMain, files := [("vortexl2-fwd-80.service", "legacy unit")] }

/-- World with a legacy unit file for port 80 but no remote endpoint. -/
def wldNoRemoteLegacy : World :=
  { config := cfgNoRemote, files := [("vortexl2-fwd-80.service", "legacy unit")] }

/-- World with no unit files but one declared port. -/
def wldBare : World := { config := cfgMain, files := [] }

/-- World holding both the canonical and the legacy unit file for port 80. -/
def wldBothUnits : World :=
  { config := cfgMain,
    files := [("vortexl2-fwd-main-80.service", "canonical unit"),
              ("vortexl2-fwd-80.service", "legacy unit")] }

/-- World with an empty declared-port set. -/
def wldNoPorts : World :=
  { config := { cfgMain with forwarded_ports := [] }, files := [] }

/-- World with no remote endpoint, no unit files, one declared port. -/
def wldNoRemoteBare : World := { config := cfgNoRemote, files := [] }

/-! ## Helper lemmas: characters -/

/-- `Char.ofNat` round-trips through `toNat` on the BMP range. -/
theorem charOfNat_toNat {n : Nat} (h : n < 55296) : (Char.ofNat n).toNat = n := by
  have hv : Nat.isValidChar n := Or.inl h
  simp only [Char.ofNat, hv, dif_pos, Char.ofNatAux, Char.toNat]
  simp [UInt32.toNat, UInt32.ofNatCore]

theorem lowerChar_not_upper (c : Char) :
    ¬(65 ≤ (lowerChar c).toNat ∧ (lowerChar c).toNat ≤ 90) := by
  unfold lowerChar
  split
  · next h =>
    rw [charOfNat_toNat (by omega)]
    omega
  · next h => exact h

theorem lowerChar_idem (c : Char) : lowerChar (lowerChar c) = lowerChar c := by
  have h := lowerChar_not_upper c
  generalize lowerChar c = d at h ⊢
  unfold lowerChar
  exact if_neg h

/-- `sanitizeChar` output is either the input or a dash. -/
theorem sanitizeChar_cases (c : Char) : sanitizeChar c = c ∨ sanitizeChar c = '-' := by
  unfold sanitizeChar
  split
  · exact Or.inl rfl
  · exact Or.inr rfl

theorem sanitizeChar_idem (c : Char) : sanitizeChar (sanitizeChar c) = sanitizeChar c := by
  rcases sanitizeChar_cases c with h | h
  · rw [h]; exact h
  · rw [h]; decide

theorem lowerChar_sanitizeChar_lowerChar (c : Char) :
    lowerChar (sanitizeChar (lowerChar c)) = sanitizeChar (lowerChar c) := by
  rcases sanitizeChar_cases (lowerChar c) with h | h
  · rw [h]; exact lowerChar_idem c
  · rw [h]; decide

theorem alnum_not_ws {c : Char} (h : c.isAlphanum = true) : c.isWhitespace = false := by
  by_contra hw
  rw [Bool.not_eq_false] at hw
  simp only [Char.isWhitespace, Bool.or_eq_true, decide_eq_true_eq] at hw
  rcases hw with ((h1 | h1) | h1) | h1 <;> (subst h1; exact absurd h (by decide))

theorem sanitizeChar_not_ws (c : Char) : (sanitizeChar c).isWhitespace = false := by
  unfold sanitizeChar
  split
  · next h =>
    rcases h with h | h | h
    · exact alnum_not_ws h
    · subst h; decide
    · subst h; decide
  · decide

theorem isDigit_ne_dash {c : Char} (h : c.isDigit = true) : c ≠ '-' := by
  intro he
  subst he
  exact absurd h (by decide)

/-! ## Helper lemmas: lists -/

theorem head?_dropWhile {α : Type} {p : α → Bool} :
    ∀ {l : List α} {c : α}, (l.dropWhile p).head? = some c → p c = false := by
  intro l
  induction l with
  | nil => intro c h; simp [List.dropWhile] at h
  | cons a t ih =>
    intro c h
    rw [List.dropWhile_cons] at h
    split at h
    · exact ih h
    · next hpa =>
      simp only [List.head?_cons, Option.some.injEq] at h
      subst h
      exact Bool.not_eq_true _ ▸ hpa

theorem dropWhile_eq_self_of_head? {α : Type} {p : α → Bool} {l : List α}
    (h : ∀ c, l.head? = some c → p c = false) : l.dropWhile p = l := by
  cases l with
  | nil => rfl
  | cons a t =>
    rw [List.dropWhile_cons, if_neg]
    simp [h a rfl]

theorem dropWhile_eq_self_of_all {α : Type} {p : α → Bool} {l : List α}
    (h : ∀ c ∈ l, p c = false) : l.dropWhile p = l := by
  cases l with
  | nil => rfl
  | cons a t => exact dropWhile_eq_self_of_head? (fun c hc => by
      simp only [List.head?_cons, Option.some.injEq] at hc
      exact hc ▸ h a (List.mem_cons_self a t))

theorem map_eq_self_of_mem {α : Type} {f : α → α} {l : List α}
    (h : ∀ c ∈ l, f c = c) : l.map f = l := by
  induction l with
  | nil => rfl
  | cons a t ih =>
    rw [List.map_cons, h a (List.mem_cons_self a t),
      ih (fun c hc => h c (List.mem_cons_of_mem a hc))]

theorem mem_dropWhile {α : Type} {p : α → Bool} {l : List α} {c : α}
    (h : c ∈ l.dropWhile p) : c ∈ l :=
  (List.dropWhile_sublist p).mem h

theorem pyStrip_eq_self_of_all {l : List Char}
    (h : ∀ c ∈ l, c.isWhitespace = false) : pyStrip l = l := by
  unfold pyStrip
  rw [dropWhile_eq_self_of_all h,
    dropWhile_eq_self_of_all (fun c hc => h c (List.mem_reverse.mp hc)),
    List.reverse_reverse]

theorem mem_pyStrip {l : List Char} {c : Char} (h : c ∈ pyStrip l) : c ∈ l := by
  unfold pyStrip at h
  rw [List.mem_reverse] at h
  have h2 := mem_dropWhile h
  rw [List.mem_reverse] at h2
  exact mem_dropWhile h2

theorem mem_stripDash {l : List Char} {c : Char} (h : c ∈ stripDash l) : c ∈ l := by
  unfold stripDash at h
  rw [List.mem_reverse] at h
  have h2 := mem_dropWhile h
  rw [List.mem_reverse] at h2
  exact mem_dropWhile h2

theorem mem_collapseDashes : ∀ {l : List Char} {c : Char}, c ∈ collapseDashes l → c ∈ l := by
  intro l
  induction l with
  | nil => intro c h; exact h
  | cons a t ih =>
    intro c h
    cases t with
    | nil => exact h
    | cons b r =>
      rw [collapseDashes] at h
      split at h
      · next hd => exact List.mem_cons_of_mem a (ih h)
      · rcases List.mem_cons.mp h with h1 | h1
        · exact h1 ▸ List.mem_cons_self a (b :: r)
        · exact List.mem_cons_of_mem a (ih h1)

theorem head?_collapseDashes : ∀ (l : List Char) (a : Char),
    (collapseDashes (a :: l)).head? = some a := by
  intro l
  induction l with
  | nil => intro a; rfl
  | cons b r ih =>
    intro a
    rw [collapseDashes]
    split
    · next hd => rw [hd.1, ← hd.2]; exact ih b
    · rfl

theorem chain'_collapseDashes : ∀ (l : List Char), List.Chain' NotDD (collapseDashes l) := by
  intro l
  induction l with
  | nil => exact List.chain'_nil
  | cons a t ih =>
    cases t with
    | nil => exact List.chain'_singleton a
    | cons b r =>
      rw [collapseDashes]
      split
      · exact ih
      · next hd =>
        rw [List.chain'_cons']
        refine ⟨fun y hy => ?_, ih⟩
        rw [head?_collapseDashes r b, Option.mem_def, Option.some.injEq] at hy
        exact hy ▸ hd

theorem collapseDashes_eq_self : ∀ {l : List Char}, List.Chain' NotDD l → collapseDashes l = l := by
  intro l
  induction l with
  | nil => intro _; rfl
  | cons a t ih =>
    intro h
    cases t with
    | nil => rfl
    | cons b r =>
      rw [collapseDashes, if_neg (List.chain'_cons.mp h).1,
        ih (List.chain'_cons.mp h).2]

theorem stripDash_getLast? (l : List Char) : (stripDash l).getLast? ≠ some '-' := by
  intro h
  unfold stripDash at h
  rw [List.getLast?_reverse] at h
  exact absurd (head?_dropWhile h) (by decide)

theorem stripDash_head? (l : List Char) : (stripDash l).head? ≠ some '-' := by
  intro h
  unfold stripDash at h
  rw [List.head?_reverse] at h
  obtain ⟨pre, hpre⟩ :=
    List.dropWhile_suffix (l := (l.dropWhile (· == '-')).reverse) (· == '-')
  have hne : (l.dropWhile (· == '-')).reverse.dropWhile (· == '-') ≠ [] := by
    intro h0
    rw [h0] at h
    simp at h
  have h2 : (l.dropWhile (· == '-')).reverse.getLast? = some '-' := by
    rw [← hpre, List.getLast?_append, h]
    rfl
  rw [List.getLast?_reverse] at h2
  exact absurd (head?_dropWhile h2) (by decide)

theorem stripDash_eq_self {l : List Char}
    (h1 : l.head? ≠ some '-') (h2 : l.getLast? ≠ some '-') : stripDash l = l := by
  unfold stripDash
  have e1 : l.dropWhile (· == '-') = l := by
    refine dropWhile_eq_self_of_head? (fun c hc => ?_)
    refine beq_eq_false_iff_ne.mpr (fun hcc => ?_)
    exact h1 (hcc ▸ hc)
  rw [e1]
  have e2 : l.reverse.dropWhile (· == '-') = l.reverse := by
    refine dropWhile_eq_self_of_head? (fun c hc => ?_)
    rw [List.head?_reverse] at hc
    refine beq_eq_false_iff_ne.mpr (fun hcc => ?_)
    exact h2 (hcc ▸ hc)
  rw [e2, List.reverse_reverse]

theorem notDD_symm {a b : Char} (h : NotDD a b) : NotDD b a :=
  fun hc => h ⟨hc.2, hc.1⟩

theorem chain'_reverse_notDD {l : List Char} (h : List.Chain' NotDD l) :
    List.Chain' NotDD l.reverse := by
  rw [List.chain'_reverse]
  exact h.imp (fun a b hab => notDD_symm hab)

theorem chain'_stripDash {l : List Char} (h : List.Chain' NotDD l) :
    List.Chain' NotDD (stripDash l) := by
  unfold stripDash
  refine chain'_reverse_notDD (List.Chain'.suffix ?_ (List.dropWhile_suffix _))
  exact chain'_reverse_notDD (List.Chain'.suffix h (List.dropWhile_suffix _))

/-! ## Helper lemmas: the sanitizer -/

/-- Zeta-reduced form of `sanitizeUnitPart`. -/
theorem sanitizeUnitPart_eq (l : List Char) :
    sanitizeUnitPart l =
      if stripDash (collapseDashes (((pyStrip l).map lowerChar).map sanitizeChar)) = []
      then "tunnel".toList
      else stripDash (collapseDashes (((pyStrip l).map lowerChar).map sanitizeChar)) := rfl

theorem sanitize_ne_nil (l : List Char) : sanitizeUnitPart l ≠ [] := by
  rw [sanitizeUnitPart_eq]
  split
  · decide
  · next h => exact h

theorem sanitize_chars {l : List Char} :
    ∀ c ∈ sanitizeUnitPart l, lowerChar c = c ∧ sanitizeChar c = c ∧ c.isWhitespace = false := by
  intro c hc
  rw [sanitizeUnitPart_eq] at hc
  split at hc
  · fin_cases hc <;> exact ⟨by decide, by decide, by decide⟩
  · have h2 := mem_collapseDashes (mem_stripDash hc)
    rw [List.mem_map] at h2
    obtain ⟨d, hd, hdc⟩ := h2
    rw [List.mem_map] at hd
    obtain ⟨e, _he, hed⟩ := hd
    subst hdc
    subst hed
    exact ⟨lowerChar_sanitizeChar_lowerChar e, sanitizeChar_idem _, sanitizeChar_not_ws _⟩

theorem sanitize_chain' (l : List Char) : List.Chain' NotDD (sanitizeUnitPart l) := by
  rw [sanitizeUnitPart_eq]
  split
  · have e : "tunnel".toList = ['t', 'u', 'n', 'n', 'e', 'l'] := rfl
    rw [e]
    simp only [List.chain'_cons, List.chain'_singleton, and_true]
    exact ⟨fun h => absurd h.1 (by decide), fun h => absurd h.1 (by decide),
      fun h => absurd h.2 (by decide), fun h => absurd h.1 (by decide),
      fun h => absurd h.1 (by decide)⟩
  · exact chain'_stripDash (chain'_collapseDashes _)

theorem sanitize_head? (l : List Char) : (sanitizeUnitPart l).head? ≠ some '-' := by
  rw [sanitizeUnitPart_eq]
  split
  · decide
  · exact stripDash_head? _

theorem sanitize_getLast? (l : List Char) : (sanitizeUnitPart l).getLast? ≠ some '-' := by
  rw [sanitizeUnitPart_eq]
  split
  · decide
  · exact stripDash_getLast? _

theorem sanitizeUnitPart_idem (l : List Char) :
    sanitizeUnitPart (sanitizeUnitPart l) = sanitizeUnitPart l := by
  have hch := sanitize_chars (l := l)
  have e1 : pyStrip (sanitizeUnitPart l) = sanitizeUnitPart l :=
    pyStrip_eq_self_of_all (fun c hc => (hch c hc).2.2)
  have e2 : (sanitizeUnitPart l).map lowerChar = sanitizeUnitPart l :=
    map_eq_self_of_mem (fun c hc => (hch c hc).1)
  have e3 : (sanitizeUnitPart l).map sanitizeChar = sanitizeUnitPart l :=
    map_eq_self_of_mem (fun c hc => (hch c hc).2.1)
  have e4 : collapseDashes (sanitizeUnitPart l) = sanitizeUnitPart l :=
    collapseDashes_eq_self (sanitize_chain' l)
  have e5 : stripDash (sanitizeUnitPart l) = sanitizeUnitPart l :=
    stripDash_eq_self (sanitize_head? l) (sanitize_getLast? l)
  rw [sanitizeUnitPart_eq (sanitizeUnitPart l), e1, e2, e3, e4, e5,
    if_neg (sanitize_ne_nil l)]

/-! ## Helper lemmas: decimal representations -/

theorem digitChar_isDigit {d : Nat} (h : d < 10) : (digitChar d).isDigit = true := by
  interval_cases d <;> decide

theorem digitChar_toNat {d : Nat} (h : d < 10) : (digitChar d).toNat = 48 + d := by
  interval_cases d <;> decide

theorem digitsVal_append (l : List Char) (c : Char) :
    digitsVal (l ++ [c]) = digitsVal l * 10 + (c.toNat - 48) := by
  unfold digitsVal
  rw [List.foldl_append]
  rfl

theorem natDigitsAux_val : ∀ (fuel n : Nat), n < fuel → digitsVal (natDigitsAux fuel n) = n := by
  intro fuel
  induction fuel with
  | zero => intro n h; omega
  | succ f ih =>
    intro n h
    rw [natDigitsAux]
    split
    · next h10 =>
      show digitsVal [digitChar n] = n
      unfold digitsVal
      rw [List.foldl_cons, List.foldl_nil, digitChar_toNat h10]
      omega
    · next h10 =>
      have hdiv : n / 10 < n := Nat.div_lt_self (by omega) (by omega)
      rw [digitsVal_append, ih (n / 10) (by omega),
        digitChar_toNat (Nat.mod_lt _ (by omega))]
      omega

theorem natDigits_inj {n m : Nat} (h : natDigits n = natDigits m) : n = m := by
  have h1 := natDigitsAux_val (n + 1) n (by omega)
  have h2 := natDigitsAux_val (m + 1) m (by omega)
  rw [natDigits, natDigits] at h
  rw [← h1, ← h2, h]

theorem natDigitsAux_digits :
    ∀ (fuel n : Nat) {c : Char}, c ∈ natDigitsAux fuel n → c.isDigit = true := by
  intro fuel
  induction fuel with
  | zero => intro n c h; exact absurd h (List.not_mem_nil c)
  | succ f ih =>
    intro n c h
    rw [natDigitsAux] at h
    split at h
    · next h10 =>
      rw [List.mem_singleton] at h
      exact h ▸ digitChar_isDigit h10
    · rcases List.mem_append.mp h with h1 | h1
      · exact ih _ h1
      · rw [List.mem_singleton] at h1
        exact h1 ▸ digitChar_isDigit (Nat.mod_lt _ (by omega))

theorem natDigits_digits {n : Nat} {c : Char} (h : c ∈ natDigits n) : c.isDigit = true :=
  natDigitsAux_digits _ _ h

theorem intRepr_inj {p q : Int} (h : intRepr p = intRepr q) : p = q := by
  cases p with
  | ofNat n =>
    cases q with
    | ofNat m =>
      rw [intRepr, intRepr] at h
      exact congrArg Int.ofNat (natDigits_inj h)
    | negSucc m =>
      exfalso
      rw [intRepr, intRepr] at h
      have hm : '-' ∈ natDigits n := h ▸ List.mem_cons_self '-' (natDigits (m + 1))
      exact absurd (natDigits_digits hm) (by decide)
  | negSucc n =>
    cases q with
    | ofNat m =>
      exfalso
      rw [intRepr, intRepr] at h
      have hm : '-' ∈ natDigits m := h ▸ List.mem_cons_self '-' (natDigits (n + 1))
      exact absurd (natDigits_digits hm) (by decide)
    | negSucc m =>
      rw [intRepr, intRepr] at h
      rw [List.cons.injEq] at h
      have hnm := natDigits_inj h.2
      exact congrArg Int.negSucc (by omega)

/-! ## Helper lemmas: unambiguous decomposition of the canonical identifier -/

theorem dashSplitAux {s1 s2 t1 t2 a : List Char}
    (ha : s2 = s1 ++ a) (hta : '-' :: t1 = a ++ '-' :: t2)
    (ht1 : TailOk t1) (hs2 : ∀ t, s2 ≠ t ++ ['-']) :
    s1 = s2 ∧ t1 = t2 := by
  cases a with
  | nil =>
    rw [List.nil_append] at hta
    rw [List.append_nil] at ha
    exact ⟨ha.symm, (List.cons.injEq _ _ _ _ ▸ hta).2⟩
  | cons x xs =>
    exfalso
    rw [List.cons_append, List.cons.injEq] at hta
    obtain ⟨hx, ht1eq⟩ := hta
    rcases ht1 with hnd | ⟨d, hdeq, hdnd⟩
    · have hm : '-' ∈ t1 := by
        rw [ht1eq]
        exact List.mem_append_right xs (List.mem_cons_self '-' t2)
      exact hnd '-' hm rfl
    · rw [hdeq] at ht1eq
      cases xs with
      | nil =>
        subst hx
        rw [List.nil_append] at ht1eq
        exact hs2 s1 (by rw [ha])
      | cons y ys =>
        rw [List.cons_append, List.cons.injEq] at ht1eq
        have hm : '-' ∈ d := by
          rw [ht1eq.2]
          exact List.mem_append_right ys (List.mem_cons_self '-' t2)
        exact hdnd '-' hm rfl

theorem dashSplit {s1 s2 t1 t2 : List Char}
    (h : s1 ++ '-' :: t1 = s2 ++ '-' :: t2)
    (ht1 : TailOk t1) (ht2 : TailOk t2)
    (hs1 : ∀ t, s1 ≠ t ++ ['-']) (hs2 : ∀ t, s2 ≠ t ++ ['-']) :
    s1 = s2 ∧ t1 = t2 := by
  rcases List.append_eq_append_iff.mp h with ⟨a, ha, hta⟩ | ⟨c, hc, htc⟩
  · exact dashSplitAux ha hta ht1 hs2
  · have hr := dashSplitAux hc htc ht2 hs1
    exact ⟨hr.1.symm, hr.2.symm⟩

theorem sanitize_no_trailing_dash (l : List Char) : ∀ t, sanitizeUnitPart l ≠ t ++ ['-'] := by
  intro t h
  have hg := sanitize_getLast? l
  rw [h, List.getLast?_concat] at hg
  exact hg rfl

theorem tailOk_intRepr (p : Int) (suf : List Char) (hsuf : ∀ c ∈ suf, c ≠ '-') :
    TailOk (intRepr p ++ suf) := by
  cases p with
  | ofNat n =>
    left
    intro c hc
    rcases List.mem_append.mp hc with h | h
    · exact isDigit_ne_dash (natDigits_digits h)
    · exact hsuf c h
  | negSucc n =>
    right
    refine ⟨natDigits (n + 1) ++ suf, by rw [intRepr, List.cons_append], ?_⟩
    intro c hc
    rcases List.mem_append.mp hc with h | h
    · exact isDigit_ne_dash (natDigits_digits h)
    · exact hsuf c h

theorem canonicalIdL_inj {n1 n2 : List Char} {p1 p2 : Int}
    (h : canonicalIdL n1 p1 = canonicalIdL n2 p2) :
    sanitizeUnitPart n1 = sanitizeUnitPart n2 ∧ p1 = p2 := by
  unfold canonicalIdL at h
  have h1 := List.append_cancel_left h
  have hsuf : ∀ c ∈ ".service".toList, c ≠ '-' := by decide
  have hd := dashSplit h1 (tailOk_intRepr p1 _ hsuf) (tailOk_intRepr p2 _ hsuf)
    (sanitize_no_trailing_dash n1) (sanitize_no_trailing_dash n2)
  exact ⟨hd.1, intRepr_inj (List.append_cancel_right hd.2)⟩

/-! ## Helper lemmas: world and filesystem -/

theorem any_filter_self (files : List (String × String)) (a : String) :
    (files.filter (fun e => e.1 != a)).any (fun e => e.1 == a) = false := by
  rw [Bool.eq_false_iff]
  intro hcon
  rw [List.any_eq_true] at hcon
  obtain ⟨e, he, heq⟩ := hcon
  rw [List.mem_filter, bne_iff_ne] at he
  rw [beq_iff_eq] at heq
  exact he.2 heq

theorem any_filter_ne (files : List (String × String)) {a b : String} (h : b ≠ a) :
    (files.filter (fun e => e.1 != a)).any (fun e => e.1 == b) =
      files.any (fun e => e.1 == b) := by
  rw [Bool.eq_iff_iff]
  simp only [List.any_eq_true, List.mem_filter, bne_iff_ne, beq_iff_eq]
  constructor
  · rintro ⟨e, ⟨he, _⟩, hb⟩
    exact ⟨e, he, hb⟩
  · rintro ⟨e, he, hb⟩
    exact ⟨e, ⟨he, by rw [hb]; exact h⟩, hb⟩

theorem fileExists_setFile_self (w : World) (a c : String) :
    fileExists (setFile w a c) a = true := by
  unfold fileExists setFile
  dsimp only
  rw [List.any_append]
  simp

theorem fileExists_setFile_ne (w : World) (a c : String) {b : String} (h : b ≠ a) :
    fileExists (setFile w a c) b = fileExists w b := by
  unfold fileExists setFile
  dsimp only
  rw [List.any_append, any_filter_ne _ h]
  have : (a == b) = false := beq_eq_false_iff_ne.mpr (Ne.symm h)
  simp [this]

theorem setFile_config (w : World) (a c : String) : (setFile w a c).config = w.config := rfl

theorem tryUnlink_config (env : Env) (w : World) (a : String) :
    (tryUnlink env w a).1.config = w.config := by
  unfold tryUnlink
  split <;> rfl

theorem fileExists_tryUnlink_ne (env : Env) (w : World) (a : String) {b : String}
    (h : b ≠ a) : fileExists (tryUnlink env w a).1 b = fileExists w b := by
  unfold tryUnlink
  split
  · unfold fileExists
    dsimp only
    exact any_filter_ne _ h
  · rfl

theorem fileExists_tryUnlink_self (env : Env) (w : World) (a : String)
    (h : env.unlinkOk a = true) : fileExists (tryUnlink env w a).1 a = false := by
  unfold tryUnlink
  rw [if_pos h]
  unfold fileExists
  dsimp only
  exact any_filter_self _ _

/-- Zeta-reduced form of `migrateLegacyUnit`. -/
theorem migrateLegacyUnit_eq (env : Env) (w : World) (p : Int) :
    migrateLegacyUnit env w p =
      if fileExists w (legacyServiceName p) then
        ((tryUnlink env w (legacyServiceName p)).1,
          [Action.runCmd ("systemctl stop " ++ legacyServiceName p),
           Action.runCmd ("systemctl disable " ++ legacyServiceName p)] ++
            (tryUnlink env w (legacyServiceName p)).2 ++
            [Action.runCmd "systemctl daemon-reload"])
      else (w, []) := rfl

theorem migrate_config (env : Env) (w : World) (p : Int) :
    (migrateLegacyUnit env w p).1.config = w.config := by
  rw [migrateLegacyUnit_eq]
  split
  · exact tryUnlink_config env w _
  · rfl

theorem migrate_noop (env : Env) (w : World) (p : Int)
    (h : fileExists w (legacyServiceName p) = false) :
    migrateLegacyUnit env w p = (w, []) := by
  rw [migrateLegacyUnit_eq]
  rw [if_neg (by rw [h]; exact Bool.false_ne_true)]

theorem fileExists_migrate_ne (env : Env) (w : World) (p : Int) {b : String}
    (h : b ≠ legacyServiceName p) :
    fileExists (migrateLegacyUnit env w p).1 b = fileExists w b := by
  rw [migrateLegacyUnit_eq]
  split
  · exact fileExists_tryUnlink_ne env w _ h
  · rfl

theorem fileExists_migrate_self (env : Env) (w : World) (p : Int)
    (hex : fileExists w (legacyServiceName p) = true)
    (hok : env.unlinkOk (legacyServiceName p) = true) :
    fileExists (migrateLegacyUnit env w p).1 (legacyServiceName p) = false := by
  rw [migrateLegacyUnit_eq, if_pos hex]
  exact fileExists_tryUnlink_self env w _ hok

/-- The canonical and legacy unit names for the same port differ (the
canonical one strictly contains the nonempty sanitized tunnel name and
one extra delimiter). -/
theorem getServiceName_ne_legacy (c : Config) (p : Int) :
    getServiceName c p ≠ legacyServiceName p := by
  intro h
  have hd : canonicalIdL (c.name.getD "tunnel").toList p
      = "vortexl2-fwd-".data ++ (intRepr p ++ ".service".data) := by
    have h2 := congrArg String.data h
    unfold getServiceName legacyServiceName intStr at h2
    simpa [String.data_append, List.append_assoc] using h2
  unfold canonicalIdL at hd
  have hlen := congrArg List.length hd
  simp only [String.toList, List.length_append, List.length_cons] at hlen
  have hpos : 0 < (sanitizeUnitPart (c.name.getD "tunnel").toList).length :=
    List.length_pos.mpr (sanitize_ne_nil _)
  omega

/-! ## Helper lemmas: operations -/

theorem tryUnlink_trace (env : Env) (w : World) (a : String) :
    (tryUnlink env w a).2 = [Action.deleteFile a] := by
  unfold tryUnlink
  split <;> rfl

theorem fileExists_config (w : World) (c : Config) (p : String) :
    fileExists { w with config := c } p = fileExists w p := rfl

theorem not_mem_removePort (c : Config) (p : Int) :
    p ∉ (Config.removePort c p).forwarded_ports := by
  intro h
  unfold Config.removePort at h
  rw [List.mem_filter, bne_iff_ne] at h
  exact h.2 rfl

theorem createForward_noRemote (env : Env) (w : World) (port : Int)
    (h : remoteFalsy w.config = true) :
    createForward env w port = ⟨w, [], false, "Remote forward IP not configured"⟩ := by
  unfold createForward
  rw [if_pos h]

/-- What `create_forward` does on the happy path (remote configured,
unit-file write allowed, `enable --now` succeeds). -/
theorem createForward_spec (env : Env) (w : World) (port : Int)
    (hrf : remoteFalsy w.config = false)
    (hw : env.writeOk (getServiceName w.config port) = true)
    (hc : (env.cmd ("systemctl enable --now " ++ getServiceName w.config port)).1 = true) :
    createForward env w port =
      ⟨{ setFile (migrateLegacyUnit env w port).1 (getServiceName w.config port)
            (serviceTemplate (w.config.name.getD "tunnel") port
              (w.config.remote_forward_ip.getD "") (w.config.listen_ip.getD "0.0.0.0")) with
          config := w.config.addPort port },
        (migrateLegacyUnit env w port).2 ++
          [Action.writeFile (getServiceName w.config port)
              (serviceTemplate (w.config.name.getD "tunnel") port
                (w.config.remote_forward_ip.getD "") (w.config.listen_ip.getD "0.0.0.0")),
            Action.runCmd "systemctl daemon-reload",
            Action.runCmd ("systemctl enable --now " ++ getServiceName w.config port)] ++
          [Action.addPort port], true,
        "Port forward for " ++ intStr port ++ " created (listen " ++
          (w.config.listen_ip.getD "0.0.0.0") ++ " -> " ++
          (w.config.remote_forward_ip.getD "") ++ ":" ++ intStr port ++ ")"⟩ := by
  simp only [createForward, migrate_config, setFile_config, hrf, hw, hc,
    Bool.false_eq_true, if_false, if_true]

/-- The `start_all_forwards` loop body when the canonical unit file is
absent after migration: fall back to `create_forward`. -/
theorem startOnePort_fallback (env : Env) (w : World) (port : Int)
    (h : fileExists (migrateLegacyUnit env w port).1
        (getServiceName (migrateLegacyUnit env w port).1.config port) = false) :
    startOnePort env w port =
      ((createForward env (migrateLegacyUnit env w port).1 port).world,
        (migrateLegacyUnit env w port).2 ++
          (createForward env (migrateLegacyUnit env w port).1 port).trace,
        if (createForward env (migrateLegacyUnit env w port).1 port).ok
        then "Port " ++ intStr port ++ ": recreated and started"
        else "Port " ++ intStr port ++ ": failed to recreate - " ++
          (createForward env (migrateLegacyUnit env w port).1 port).msg) := by
  simp only [startOnePort, h, Bool.not_false, if_true]

/-- The `restart_all_forwards` loop body is a no-op (beyond the report
line) when the remote endpoint is unset and no legacy unit file exists:
whichever way the canonical-file check goes, nothing is changed and no
command is run. -/
theorem restartOnePort_noRemote_noLegacy (env : Env) (w : World) (port : Int)
    (hrf : remoteFalsy w.config = true)
    (hleg : fileExists w (legacyServiceName port) = false) :
    (restartOnePort env w port).1 = w ∧ (restartOnePort env w port).2.1 = [] := by
  have hmg := migrate_noop env w port hleg
  by_cases hex : fileExists w (getServiceName w.config port) = true
  · constructor <;>
      simp only [restartOnePort, hmg, hex, Bool.not_true, Bool.false_eq_true, if_false,
        if_true, hrf]
  · rw [Bool.not_eq_true] at hex
    constructor <;>
      · simp only [restartOnePort, hmg, hex, Bool.not_false, if_true,
          createForward_noRemote env w port hrf]
        try rfl

theorem startAllLoop_length (env : Env) :
    ∀ (ports : List Int) (w : World),
      (startAllLoop env w ports).2.2.length = ports.length := by
  intro ports
  induction ports with
  | nil => intro w; rfl
  | cons p ps ih =>
    intro w
    rw [startAllLoop]
    simp only [List.length_cons, ih]

theorem restartAllLoop_length (env : Env) :
    ∀ (ports : List Int) (w : World),
      (restartAllLoop env w ports).2.2.length = ports.length := by
  intro ports
  induction ports with
  | nil => intro w; rfl
  | cons p ps ih =>
    intro w
    rw [restartAllLoop]
    simp only [List.length_cons, ih]

theorem stopAllLoop_length_le (env : Env) (c : Config) :
    ∀ ports : List Int, (stopAllLoop env c ports).2.length ≤ ports.length := by
  intro ports
  induction ports with
  | nil => exact Nat.le_refl 0
  | cons p ps ih =>
    rw [stopAllLoop]
    have h1 : (stopOnePort env c p).2.length ≤ 1 := by
      unfold stopOnePort
      dsimp only
      split <;> simp
    simp only [List.length_append, List.length_cons]
    omega

theorem multiLoop_shape (env : Env) (op : Env → World → Int → OpResult) :
    ∀ (toks : List (List Char)) (w : World),
      List.Forall₂ lineShape toks (multiLoop env op w toks).2.2 := by
  intro toks
  induction toks with
  | nil => intro w; exact List.Forall₂.nil
  | cons tok rest ih =>
    intro w
    rw [multiLoop]
    rcases hp : pyParseInt tok with _ | n
    · simp only [hp]
      exact List.Forall₂.cons (by unfold lineShape; rw [hp]) (ih w)
    · simp only [hp]
      exact List.Forall₂.cons (by unfold lineShape; rw [hp]; exact ⟨_, rfl⟩) (ih _)

/-! ## Claim theorems -/

/-- C8: `_sanitize_unit_part` is total and deterministic (it is a plain
Lean function of its input, defined for every input string) and
idempotent: `sanitize(sanitize(x)) = sanitize(x)` for every string. -/
theorem sanitize_total_deterministic_idempotent :
    ∀ s : List Char, sanitizeUnitPart (sanitizeUnitPart s) = sanitizeUnitPart s :=
  sanitizeUnitPart_idem

/-- C1 counterexample: the claim asserts the delimiter joining the
sanitized name and the port "cannot appear in the sanitized alphabet".
That is false: the delimiter is `-`, and sanitization itself emits `-`
(every disallowed character becomes `-`, and `-` is kept): sanitizing
`"a.b"` yields `"a-b"`, which contains the delimiter. -/
theorem canonical_id_delimiter_in_sanitized_output :
    sanitizeUnitPart "a.b".toList = "a-b".toList ∧
      '-' ∈ sanitizeUnitPart "a.b".toList := by
  constructor <;> decide

/-- C1 (amended): deriving the canonical service identifier is
deterministic (it is a pure function), always non-empty (a name
sanitizing to empty falls back to the fixed token `"tunnel"`), and
collision-free across distinct `(tunnel_name, port)` pairs
post-sanitization — not because the delimiter cannot appear in the
sanitized alphabet (it can), but because the port's decimal
representation contains no interior delimiter and a sanitized name
never ends in the delimiter, which makes the decomposition
unambiguous. -/
theorem canonical_id_nonempty_injective :
    (∀ name : List Char, sanitizeUnitPart name ≠ []) ∧
    (∀ (name : List Char) (port : Int), canonicalIdL name port ≠ []) ∧
    (∀ (n1 n2 : List Char) (p1 p2 : Int),
      sanitizeUnitPart n1 ≠ sanitizeUnitPart n2 ∨ p1 ≠ p2 →
      canonicalIdL n1 p1 ≠ canonicalIdL n2 p2) := by
  refine ⟨sanitize_ne_nil, ?_, ?_⟩
  · intro name port h
    rw [canonicalIdL] at h
    simp at h
  · intro n1 n2 p1 p2 hne h
    have hinj := canonicalIdL_inj h
    rcases hne with hn | hp
    · exact hn hinj.1
    · exact hp hinj.2

/-- Witness for the amended C1 theorem at concrete inputs. -/
theorem canonical_id_nonempty_injective_witness :
    (sanitizeUnitPart "a".toList ≠ sanitizeUnitPart "b".toList ∨ (80 : Int) ≠ 80) ∧
    canonicalIdL "a".toList 80 ≠ canonicalIdL "b".toList 80 :=
  ⟨Or.inl (by decide),
    canonical_id_nonempty_injective.2.2 "a".toList "b".toList 80 80 (Or.inl (by decide))⟩

/-- C10: a batch call whose input contains no non-empty token returns
success with an empty transcript, performs no per-port operation (no
trace, unchanged world), and does not produce the
"No port forwards configured" message of the all-port operations. -/
theorem batch_empty_tokens :
    (∀ (env : Env) (w : World) (s : String), parseTokens s = [] →
      addMultipleForwards env w s = ⟨w, [], true, ""⟩ ∧
      removeMultipleForwards env w s = ⟨w, [], true, ""⟩) ∧
    parseTokens "" = [] ∧ parseTokens " , ,," = [] ∧
    ("" : String) ≠ "No port forwards configured" := by
  refine ⟨?_, by decide, by decide, by decide⟩
  intro env w s h
  constructor
  · simp only [addMultipleForwards, h, multiLoop]
    rfl
  · simp only [removeMultipleForwards, h, multiLoop]
    rfl

/-- Witness for C10 at the empty input string. -/
theorem batch_empty_tokens_witness :
    parseTokens "" = [] ∧
    addMultipleForwards envAllFail wldBare "" = ⟨wldBare, [], true, ""⟩ :=
  ⟨by decide, (batch_empty_tokens.1 envAllFail wldBare "" (by decide)).1⟩

/-- C9: batch token handling performs no port-range validation: `0`,
negative numbers, and values above 65535 all parse, and any parsed
token is handed to `create_forward` / `remove_forward` unchanged; only
parse failures produce the invalid-port message. -/
theorem batch_no_range_check :
    (pyParseInt "0".toList = some 0 ∧ pyParseInt "-5".toList = some (-5) ∧
      pyParseInt "70000".toList = some 70000) ∧
    (∀ (env : Env) (w : World) (tok : List Char) (rest : List (List Char)) (n : Int),
      pyParseInt tok = some n →
      multiLoop env createForward w (tok :: rest) =
        ((multiLoop env createForward (createForward env w n).world rest).1,
          (createForward env w n).trace ++
            (multiLoop env createForward (createForward env w n).world rest).2.1,
          ("Port " ++ intStr n ++ ": " ++ (createForward env w n).msg) ::
            (multiLoop env createForward (createForward env w n).world rest).2.2) ∧
      multiLoop env removeForward w (tok :: rest) =
        ((multiLoop env removeForward (removeForward env w n).world rest).1,
          (removeForward env w n).trace ++
            (multiLoop env removeForward (removeForward env w n).world rest).2.1,
          ("Port " ++ intStr n ++ ": " ++ (removeForward env w n).msg) ::
            (multiLoop env removeForward (removeForward env w n).world rest).2.2)) := by
  refine ⟨⟨by decide, by decide, by decide⟩, ?_⟩
  intro env w tok rest n hp
  constructor
  · rw [multiLoop]
    simp only [hp]
  · rw [multiLoop]
    simp only [hp]

/-- Witness for C9: the negative token `-5` is passed through to
`create_forward` rather than rejected. -/
theorem batch_no_range_check_witness :
    pyParseInt "-5".toList = some (-5) ∧
    (multiLoop envAllFail createForward wldBare ["-5".toList]).2.2 =
      ["Port " ++ intStr (-5) ++ ": " ++ (createForward envAllFail wldBare (-5)).msg] := by
  refine ⟨by decide, ?_⟩
  rw [(batch_no_range_check.2 envAllFail wldBare "-5".toList [] (-5) (by decide)).1]
  rfl

/-- C5 counterexample: for a token that parses as an integer the success
line is built from the PARSED integer, not from the raw token: the
token `"080"` parses (Python `int("080") = 80`) and yields the line
`"Port 80: ..."`, not the claimed `"Port 080: ..."`. -/
theorem batch_line_uses_parsed_int :
    pyParseInt "080".toList = some 80 ∧
    (addMultipleForwards envAllFail wldBare "080").msg =
      "Port 80: " ++ (createForward envAllFail wldBare 80).msg ∧
    (addMultipleForwards envAllFail wldBare "080").msg ≠
      "Port 080: " ++ (createForward envAllFail wldBare 80).msg := by
  refine ⟨by decide, by decide, by decide⟩

/-- C5 (amended): `add_multiple_forwards` / `remove_multiple_forwards`
split on commas, trim, drop empty tokens, and emit exactly one line per
remaining token — `"Port {int(token)}: {message}"` (the canonical
decimal form of the parsed integer, which matches the token except for
non-canonical spellings such as leading zeros or a plus sign) on parse
success, and `"Port '{token}': Invalid port number"` with the raw token
on parse failure — never aborting the rest of the batch; the
batch-level result is always `true` with the newline-joined
transcript. -/
theorem batch_transcript_per_token :
    ∀ (env : Env) (w : World) (s : String),
      ((addMultipleForwards env w s).ok = true ∧
        (addMultipleForwards env w s).msg =
          String.intercalate "\n" (multiLoop env createForward w (parseTokens s)).2.2 ∧
        List.Forall₂ lineShape (parseTokens s)
          (multiLoop env createForward w (parseTokens s)).2.2) ∧
      ((removeMultipleForwards env w s).ok = true ∧
        (removeMultipleForwards env w s).msg =
          String.intercalate "\n" (multiLoop env removeForward w (parseTokens s)).2.2 ∧
        List.Forall₂ lineShape (parseTokens s)
          (multiLoop env removeForward w (parseTokens s)).2.2) := by
  intro env w s
  exact ⟨⟨rfl, rfl, multiLoop_shape env createForward (parseTokens s) w⟩,
    ⟨rfl, rfl, multiLoop_shape env removeForward (parseTokens s) w⟩⟩

/-- C4: `remove_forward` always reports success: it issues stop and
disable for both the canonical and the legacy unit, attempts deletion
of whichever of the two unit files exist (absorbing unlink failure),
and unconditionally removes the port from declared state as its very
last step. -/
theorem remove_forward_always_succeeds (env : Env) (w : World) (port : Int) :
    (removeForward env w port).ok = true ∧
    (removeForward env w port).msg = "Port forward for " ++ intStr port ++ " removed" ∧
    port ∉ (removeForward env w port).world.config.forwarded_ports ∧
    (removeForward env w port).trace.getLast? = some (Action.removePort port) ∧
    Action.runCmd ("systemctl stop " ++ getServiceName w.config port) ∈
      (removeForward env w port).trace ∧
    Action.runCmd ("systemctl disable " ++ getServiceName w.config port) ∈
      (removeForward env w port).trace ∧
    Action.runCmd ("systemctl stop " ++ legacyServiceName port) ∈
      (removeForward env w port).trace ∧
    Action.runCmd ("systemctl disable " ++ legacyServiceName port) ∈
      (removeForward env w port).trace ∧
    (fileExists w (getServiceName w.config port) = true →
      Action.deleteFile (getServiceName w.config port) ∈ (removeForward env w port).trace) ∧
    (fileExists w (legacyServiceName port) = true →
      Action.deleteFile (legacyServiceName port) ∈ (removeForward env w port).trace) := by
  have htr : (removeForward env w port).trace =
      [Action.runCmd ("systemctl stop " ++ getServiceName w.config port),
       Action.runCmd ("systemctl disable " ++ getServiceName w.config port),
       Action.runCmd ("systemctl stop " ++ legacyServiceName port),
       Action.runCmd ("systemctl disable " ++ legacyServiceName port)] ++
        (if fileExists w (getServiceName w.config port) then
          tryUnlink env w (getServiceName w.config port) else (w, [])).2 ++
        (if fileExists
            (if fileExists w (getServiceName w.config port) then
              tryUnlink env w (getServiceName w.config port) else (w, [])).1
            (legacyServiceName port) then
          tryUnlink env
            (if fileExists w (getServiceName w.config port) then
              tryUnlink env w (getServiceName w.config port) else (w, [])).1
            (legacyServiceName port)
         else
          ((if fileExists w (getServiceName w.config port) then
              tryUnlink env w (getServiceName w.config port) else (w, [])).1, [])).2 ++
        [Action.runCmd "systemctl daemon-reload", Action.removePort port] := rfl
  refine ⟨rfl, rfl, ?_, ?_, ?_, ?_, ?_, ?_, ?_, ?_⟩
  · exact not_mem_removePort _ port
  · rw [htr, List.getLast?_append]
    rfl
  · rw [htr]
    simp
  · rw [htr]
    simp
  · rw [htr]
    simp
  · rw [htr]
    simp
  · intro hex
    rw [htr]
    have : (if fileExists w (getServiceName w.config port) then
        tryUnlink env w (getServiceName w.config port) else (w, [])).2 =
        [Action.deleteFile (getServiceName w.config port)] := by
      rw [if_pos hex, tryUnlink_trace]
    rw [this]
    simp
  · intro hex
    rw [htr]
    have hlegex : fileExists
        (if fileExists w (getServiceName w.config port) then
          tryUnlink env w (getServiceName w.config port) else (w, [])).1
        (legacyServiceName port) = true := by
      by_cases hsn : fileExists w (getServiceName w.config port) = true
      · rw [if_pos hsn,
          fileExists_tryUnlink_ne env w _ (Ne.symm (getServiceName_ne_legacy w.config port))]
        exact hex
      · rw [Bool.not_eq_true] at hsn
        rw [if_neg (by rw [hsn]; exact Bool.false_ne_true)]
        exact hex
    rw [if_pos hlegex, tryUnlink_trace]
    simp

/-- Witness for C4: removing port 80 in a world holding both unit files,
under an environment where every cleanup step fails, still succeeds and
still unlists the port. -/
theorem remove_forward_always_succeeds_witness :
    fileExists wldBothUnits (getServiceName wldBothUnits.config 80) = true ∧
    fileExists wldBothUnits (legacyServiceName 80) = true ∧
    Action.deleteFile (getServiceName wldBothUnits.config 80) ∈
      (removeForward envCleanupFail wldBothUnits 80).trace ∧
    Action.deleteFile (legacyServiceName 80) ∈
      (removeForward envCleanupFail wldBothUnits 80).trace ∧
    (removeForward envCleanupFail wldBothUnits 80).ok = true ∧
    (80 : Int) ∉ (removeForward envCleanupFail wldBothUnits 80).world.config.forwarded_ports := by
  have h := remove_forward_always_succeeds envCleanupFail wldBothUnits 80
  exact ⟨by decide, by decide, h.2.2.2.2.2.2.2.2.1 (by decide),
    h.2.2.2.2.2.2.2.2.2 (by decide), h.1, h.2.2.1⟩

/-- C7: `list_forwards` returns exactly one record per declared port
(port, status, enabled flag, remote endpoint); the status is the
canonical `is-active` output when that query succeeds, else the legacy
`is-active` output when that succeeds, else `"inactive"`; and
`is-enabled` is queried against whichever identifier produced the
status, with `"disabled"` as fallback when that query fails. -/
theorem list_forwards_one_record_per_port (env : Env) (w : World) :
    (listForwards env w).length = w.config.forwarded_ports.length ∧
    ∀ (i : Nat) (h1 : i < (listForwards env w).length)
      (h2 : i < w.config.forwarded_ports.length),
      ((listForwards env w).get ⟨i, h1⟩).port = w.config.forwarded_ports.get ⟨i, h2⟩ ∧
      ((listForwards env w).get ⟨i, h1⟩).remote =
        (w.config.remote_forward_ip.getD "-") ++ ":" ++
          intStr (w.config.forwarded_ports.get ⟨i, h2⟩) ∧
      (((env.cmd ("systemctl is-active " ++
            getServiceName w.config (w.config.forwarded_ports.get ⟨i, h2⟩))).1 = true →
        ((listForwards env w).get ⟨i, h1⟩).status =
          (env.cmd ("systemctl is-active " ++
            getServiceName w.config (w.config.forwarded_ports.get ⟨i, h2⟩))).2 ∧
        ((listForwards env w).get ⟨i, h1⟩).enabled =
          (if (env.cmd ("systemctl is-enabled " ++
              getServiceName w.config (w.config.forwarded_ports.get ⟨i, h2⟩))).1 then
            (env.cmd ("systemctl is-enabled " ++
              getServiceName w.config (w.config.forwarded_ports.get ⟨i, h2⟩))).2
           else "disabled")) ∧
      ((env.cmd ("systemctl is-active " ++
            getServiceName w.config (w.config.forwarded_ports.get ⟨i, h2⟩))).1 = false →
        (env.cmd ("systemctl is-active " ++
            legacyServiceName (w.config.forwarded_ports.get ⟨i, h2⟩))).1 = true →
        ((listForwards env w).get ⟨i, h1⟩).status =
          (env.cmd ("systemctl is-active " ++
            legacyServiceName (w.config.forwarded_ports.get ⟨i, h2⟩))).2 ∧
        ((listForwards env w).get ⟨i, h1⟩).enabled =
          (if (env.cmd ("systemctl is-enabled " ++
              legacyServiceName (w.config.forwarded_ports.get ⟨i, h2⟩))).1 then
            (env.cmd ("systemctl is-enabled " ++
              legacyServiceName (w.config.forwarded_ports.get ⟨i, h2⟩))).2
           else "disabled")) ∧
      ((env.cmd ("systemctl is-active " ++
            getServiceName w.config (w.config.forwarded_ports.get ⟨i, h2⟩))).1 = false →
        (env.cmd ("systemctl is-active " ++
            legacyServiceName (w.config.forwarded_ports.get ⟨i, h2⟩))).1 = false →
        ((listForwards env w).get ⟨i, h1⟩).status = "inactive" ∧
        ((listForwards env w).get ⟨i, h1⟩).enabled =
          (if (env.cmd ("systemctl is-enabled " ++
              getServiceName w.config (w.config.forwarded_ports.get ⟨i, h2⟩))).1 then
            (env.cmd ("systemctl is-enabled " ++
              getServiceName w.config (w.config.forwarded_ports.get ⟨i, h2⟩))).2
           else "disabled"))) := by
  constructor
  · unfold listForwards
    exact List.length_map _ _
  · intro i h1 h2
    have hget : (listForwards env w).get ⟨i, h1⟩ =
        listOnePort env w.config (w.config.forwarded_ports.get ⟨i, h2⟩) := by
      unfold listForwards
      simp [List.getElem_map]
    rw [hget]
    unfold listOnePort
    refine ⟨rfl, rfl, ?_, ?_, ?_⟩
    · intro hca
      simp only [List.get_eq_getElem] at hca
      simp [hca]
    · intro hca hla
      simp only [List.get_eq_getElem] at hca hla
      simp [hca, hla]
    · intro hca hla
      simp only [List.get_eq_getElem] at hca hla
      simp [hca, hla]

/-- Witness for C7: the legacy-fallback scenario of the spec — the
canonical query fails, the legacy unit reports `active`, so the record
shows the legacy status and the legacy `is-enabled` answer. -/
theorem list_forwards_one_record_per_port_witness :
    (envLegacyProbe.cmd ("systemctl is-active " ++
        getServiceName wldLegacyOnly.config 80)).1 = false ∧
    (envLegacyProbe.cmd ("systemctl is-active " ++ legacyServiceName 80)).1 = true ∧
    (listForwards envLegacyProbe wldLegacyOnly).length = 1 ∧
    ((listForwards envLegacyProbe wldLegacyOnly).get
        ⟨0, by decide⟩).status = "active" ∧
    ((listForwards envLegacyProbe wldLegacyOnly).get
        ⟨0, by decide⟩).enabled = "enabled" := by
  have h := (list_forwards_one_record_per_port envLegacyProbe wldLegacyOnly).2 0
    (by decide) (by decide)
  have hc := (h.2.2.2.1 (by decide) (by decide))
  refine ⟨by decide, by decide, by decide, ?_, ?_⟩
  · rw [hc.1]
    decide
  · rw [hc.2]
    decide

/-- C3 counterexample: `stop_all_forwards` appends a transcript line only
when stopping the canonical unit succeeds, so with one declared port and
a controller whose stop fails it returns the "No port forwards
configured" message for a NON-empty declared set — the claimed
"one line per port, distinct message exactly when empty" is false. -/
theorem stop_all_shortened_transcript :
    wldBare.config.forwarded_ports ≠ [] ∧
    (stopAllForwards envAllFail wldBare).2.2 = "No port forwards configured" := by
  constructor
  · decide
  · decide

/-- C3 (amended): `start_all` and `restart_all` produce exactly one
transcript line per declared port (continuing past failures) and return
the distinct "No port forwards configured" message when the declared set
is empty, and a newline-joined transcript otherwise; `stop_all`, however,
emits a line only for each port whose canonical-unit stop succeeded and
returns the "No port forwards configured" message exactly when no line
was produced — which can also happen for a non-empty declared set. -/
theorem all_ops_transcript (env : Env) (w : World) :
    ((startAllLoop env w w.config.forwarded_ports).2.2.length =
      w.config.forwarded_ports.length) ∧
    (w.config.forwarded_ports = [] →
      (startAllForwards env w).2.2.2 = "No port forwards configured") ∧
    (w.config.forwarded_ports ≠ [] →
      (startAllForwards env w).2.2.2 =
        String.intercalate "\n" (startAllLoop env w w.config.forwarded_ports).2.2) ∧
    ((restartAllLoop env w w.config.forwarded_ports).2.2.length =
      w.config.forwarded_ports.length) ∧
    (w.config.forwarded_ports = [] →
      (restartAllForwards env w).2.2.2 = "No port forwards configured") ∧
    (w.config.forwarded_ports ≠ [] →
      (restartAllForwards env w).2.2.2 =
        String.intercalate "\n" (restartAllLoop env w w.config.forwarded_ports).2.2) ∧
    ((stopAllLoop env w.config w.config.forwarded_ports).2.length ≤
      w.config.forwarded_ports.length) ∧
    ((stopAllLoop env w.config w.config.forwarded_ports).2 = [] →
      (stopAllForwards env w).2.2 = "No port forwards configured") ∧
    ((stopAllLoop env w.config w.config.forwarded_ports).2 ≠ [] →
      (stopAllForwards env w).2.2 =
        String.intercalate "\n" (stopAllLoop env w.config w.config.forwarded_ports).2) := by
  refine ⟨startAllLoop_length env _ w, ?_, ?_, restartAllLoop_length env _ w, ?_, ?_,
    stopAllLoop_length_le env w.config _, ?_, ?_⟩
  · intro h
    simp only [startAllForwards, h, startAllLoop]
    rfl
  · intro h
    have hne : (startAllLoop env w w.config.forwarded_ports).2.2 ≠ [] := by
      intro hc
      apply h
      have hl := startAllLoop_length env w.config.forwarded_ports w
      rw [hc] at hl
      exact List.eq_nil_of_length_eq_zero hl.symm
    simp only [startAllForwards, if_neg hne]
  · intro h
    simp only [restartAllForwards, h, restartAllLoop]
    rfl
  · intro h
    have hne : (restartAllLoop env w w.config.forwarded_ports).2.2 ≠ [] := by
      intro hc
      apply h
      have hl := restartAllLoop_length env w.config.forwarded_ports w
      rw [hc] at hl
      exact List.eq_nil_of_length_eq_zero hl.symm
    simp only [restartAllForwards, if_neg hne]
  · intro h
    simp only [stopAllForwards, h]
    rfl
  · intro h
    simp only [stopAllForwards, if_neg h]

/-- Witness for the amended C3 theorem: empty set yields the fixed
message; a non-empty set yields a joined per-port transcript for
start_all; an all-failing controller makes stop_all's line list empty
and triggers the fixed message on a non-empty set. -/
theorem all_ops_transcript_witness :
    wldNoPorts.config.forwarded_ports = [] ∧
    (startAllForwards envAllOk wldNoPorts).2.2.2 = "No port forwards configured" ∧
    wldBare.config.forwarded_ports ≠ [] ∧
    (startAllForwards envAllOk wldBare).2.2.2 =
      String.intercalate "\n" (startAllLoop envAllOk wldBare wldBare.config.forwarded_ports).2.2 ∧
    (stopAllLoop envAllFail wldBare.config wldBare.config.forwarded_ports).2 = [] ∧
    (stopAllForwards envAllFail wldBare).2.2 = "No port forwards configured" := by
  refine ⟨by decide, (all_ops_transcript envAllOk wldNoPorts).2.1 (by decide), by decide,
    (all_ops_transcript envAllOk wldBare).2.2.1 (by decide), by decide,
    (all_ops_transcript envAllFail wldBare).2.2.2.2.2.2.2.1 (by decide)⟩

/-- C2 counterexample: in the per-port restart path the legacy-unit
migration runs BEFORE the remote-endpoint check, so with
`remote_forward_ip` unset and a legacy unit file present the operation
does perform side effects (controller calls against the legacy unit),
contradicting "no side effects attempted". -/
theorem restart_no_remote_migrates_first :
    remoteFalsy wldNoRemoteLegacy.config = true ∧
    Action.runCmd ("systemctl stop " ++ legacyServiceName 80) ∈
      (restartAllForwards envAllOk wldNoRemoteLegacy).2.1 := by
  constructor
  · decide
  · decide

/-- C2 (amended): when the remote endpoint is not configured,
`create_forward` fails with the configuration error having touched
nothing (it checks the remote endpoint first); the per-port restart path
reports the configuration error and performs no side effects PROVIDED no
legacy unit file exists for the port — legacy migration runs before the
configuration check and is the one side effect that can still happen. -/
theorem config_error_no_side_effects :
    (∀ (env : Env) (w : World) (port : Int), remoteFalsy w.config = true →
      createForward env w port = ⟨w, [], false, "Remote forward IP not configured"⟩) ∧
    (∀ (env : Env) (w : World) (port : Int), remoteFalsy w.config = true →
      fileExists w (legacyServiceName port) = false →
      (restartOnePort env w port).1 = w ∧ (restartOnePort env w port).2.1 = []) :=
  ⟨fun env w port h => createForward_noRemote env w port h,
    fun env w port h hleg => restartOnePort_noRemote_noLegacy env w port h hleg⟩

/-- Witness for the amended C2 theorem. -/
theorem config_error_no_side_effects_witness :
    remoteFalsy wldNoRemoteBare.config = true ∧
    createForward envAllOk wldNoRemoteBare 80 =
      ⟨wldNoRemoteBare, [], false, "Remote forward IP not configured"⟩ ∧
    fileExists wldNoRemoteBare (legacyServiceName 80) = false ∧
    (restartOnePort envAllOk wldNoRemoteBare 80).1 = wldNoRemoteBare ∧
    (restartOnePort envAllOk wldNoRemoteBare 80).2.1 = [] := by
  refine ⟨by decide, config_error_no_side_effects.1 envAllOk wldNoRemoteBare 80 (by decide),
    by decide, ?_, ?_⟩
  · exact (config_error_no_side_effects.2 envAllOk wldNoRemoteBare 80 (by decide) (by decide)).1
  · exact (config_error_no_side_effects.2 envAllOk wldNoRemoteBare 80 (by decide) (by decide)).2

/-- C6: in the per-port start path, after legacy migration, an absent
canonical unit file triggers a fallback to a full `create_forward`
instead of a failure; starting a port that has only a legacy unit file
(remote configured, cooperative environment) therefore stops, disables
and deletes the legacy unit, writes the canonical unit file and starts
the canonical unit, reporting "recreated and started". -/
theorem start_self_heals_legacy (env : Env) (w : World) (port : Int)
    (hleg : fileExists w (legacyServiceName port) = true)
    (hcan : fileExists w (getServiceName w.config port) = false)
    (hrf : remoteFalsy w.config = false)
    (hunl : env.unlinkOk (legacyServiceName port) = true)
    (hwr : env.writeOk (getServiceName w.config port) = true)
    (hen : (env.cmd ("systemctl enable --now " ++ getServiceName w.config port)).1 = true) :
    (startOnePort env w port).2.2 = "Port " ++ intStr port ++ ": recreated and started" ∧
    fileExists (startOnePort env w port).1 (legacyServiceName port) = false ∧
    fileExists (startOnePort env w port).1 (getServiceName w.config port) = true ∧
    Action.runCmd ("systemctl stop " ++ legacyServiceName port) ∈
      (startOnePort env w port).2.1 ∧
    Action.runCmd ("systemctl disable " ++ legacyServiceName port) ∈
      (startOnePort env w port).2.1 ∧
    Action.deleteFile (legacyServiceName port) ∈ (startOnePort env w port).2.1 ∧
    Action.writeFile (getServiceName w.config port)
      (serviceTemplate (w.config.name.getD "tunnel") port
        (w.config.remote_forward_ip.getD "") (w.config.listen_ip.getD "0.0.0.0")) ∈
      (startOnePort env w port).2.1 ∧
    Action.runCmd ("systemctl enable --now " ++ getServiceName w.config port) ∈
      (startOnePort env w port).2.1 := by
  have hw1c : (migrateLegacyUnit env w port).1.config = w.config := migrate_config env w port
  have hcan1 : fileExists (migrateLegacyUnit env w port).1
      (getServiceName (migrateLegacyUnit env w port).1.config port) = false := by
    rw [hw1c, fileExists_migrate_ne env w port (getServiceName_ne_legacy w.config port)]
    exact hcan
  have hfb := startOnePort_fallback env w port hcan1
  have hleg1 : fileExists (migrateLegacyUnit env w port).1 (legacyServiceName port) = false :=
    fileExists_migrate_self env w port hleg hunl
  have hcf := createForward_spec env (migrateLegacyUnit env w port).1 port
    (by rw [hw1c]; exact hrf) (by rw [hw1c]; exact hwr) (by rw [hw1c]; exact hen)
  rw [hw1c] at hcf
  rw [migrate_noop env (migrateLegacyUnit env w port).1 port hleg1] at hcf
  have hmgw : migrateLegacyUnit env w port =
      ((tryUnlink env w (legacyServiceName port)).1,
        [Action.runCmd ("systemctl stop " ++ legacyServiceName port),
         Action.runCmd ("systemctl disable " ++ legacyServiceName port)] ++
          (tryUnlink env w (legacyServiceName port)).2 ++
          [Action.runCmd "systemctl daemon-reload"]) := by
    rw [migrateLegacyUnit_eq, if_pos hleg]
  have htu := tryUnlink_trace env w (legacyServiceName port)
  rw [hfb, hcf]
  refine ⟨rfl, ?_, ?_, ?_, ?_, ?_, ?_, ?_⟩
  · dsimp only
    rw [fileExists_config, fileExists_setFile_ne _ _ _
      (Ne.symm (getServiceName_ne_legacy w.config port))]
    exact hleg1
  · dsimp only
    rw [fileExists_config]
    exact fileExists_setFile_self _ _ _
  · dsimp only
    rw [hmgw]
    simp
  · dsimp only
    rw [hmgw]
    simp
  · dsimp only
    rw [hmgw]
    simp [htu]
  · dsimp only
    simp
  · dsimp only
    simp

/-- Witness for C6: a world holding only the legacy unit for port 80, a
configured remote endpoint and a cooperative controller. -/
theorem start_self_heals_legacy_witness :
    fileExists wldLegacyOnly (legacyServiceName 80) = true ∧
    fileExists wldLegacyOnly (getServiceName wldLegacyOnly.config 80) = false ∧
    remoteFalsy wldLegacyOnly.config = false ∧
    (startOnePort envAllOk wldLegacyOnly 80).2.2 = "Port 80: recreated and started" ∧
    fileExists (startOnePort envAllOk wldLegacyOnly 80).1 (legacyServiceName 80) = false ∧
    fileExists (startOnePort envAllOk wldLegacyOnly 80).1
      (getServiceName wldLegacyOnly.config 80) = true := by
  have h := start_self_heals_legacy envAllOk wldLegacyOnly 80 (by decide) (by decide)
    (by decide) (by decide) (by decide) (by decide)
  exact ⟨by decide, by decide, by decide, h.1, h.2.1, h.2.2.1⟩

end VortexL2
